import Mathlib

/-!
Verification development for the Cashfree payout webhook reconciliation core
(`cashfree_integration/api/webhook.py`, with the allocation logic shared with
`cashfree_integration/api/webhooks.py`).

The Python code is shallowly embedded: the Frappe/MariaDB tables touched by the
handler become lists of records inside a `DB` structure, every `frappe.db`
query becomes an explicit lookup on those lists, and the webhook handler
becomes a pure function from an environment, a database and a parsed request
to a response, an updated database, and an event trace.  Monetary amounts
(Python floats holding currency values) are modelled as rationals.  The
HMAC-SHA256 + base64 primitive from the Python standard library is supplied by
the environment as an opaque function `hmacB64 secret message`; everything the
repository itself computes around it (key filtering, sorting, concatenation,
comparison) is embedded directly.
-/

namespace Cashfree

/-- A parsed request value: the subset of Python/JSON values the handler
touches (strings, numbers, nested dicts). -/
inductive PyVal where
  | str (s : String)
  | num (q : Rat)
  | dict (fields : List (String × PyVal))
deriving Repr

/-- Python truthiness for the values above: empty string, zero and empty dict
are falsy. -/
def PyVal.truthy : PyVal → Bool
  | .str s => s != ""
  | .num q => q != 0
  | .dict fs => !fs.isEmpty

/-- Rendering a value as a string, as the handler does when it stores ids and
UTRs (all such fields are strings in practice). -/
def PyVal.asStr : PyVal → String
  | .str s => s
  | .num q => toString q
  | .dict _ => ""

/-- A parsed JSON object / form dict. -/
abbrev PyDict := List (String × PyVal)

/-- `d.get(k)`: plain dictionary lookup. -/
def pget (d : PyDict) (k : String) : Option PyVal :=
  (d.find? (fun p => p.1 == k)).map (fun p => p.2)

/-- `d.get(k)` used in a truthiness test or an `or` chain: a falsy value falls
through just like a missing key. -/
def pgetT (d : PyDict) (k : String) : Option PyVal :=
  match pget d k with
  | some v => if v.truthy then some v else none
  | none => none

/-- Header lookup (headers are plain strings). -/
def hget (hs : List (String × String)) (k : String) : Option String :=
  (hs.find? (fun p => p.1 == k)).map (fun p => p.2)

/-- Header lookup under truthiness (an empty header value falls through). -/
def hgetT (hs : List (String × String)) (k : String) : Option String :=
  match hget hs k with
  | some v => if v != "" then some v else none
  | none => none

/-- Python `str.upper()` on the ASCII event names the handler compares. -/
def pyUpper (s : String) : String :=
  String.mk (s.data.map Char.toUpper)

/-- Numeric value of a single decimal digit. -/
def digVal (c : Char) : Option Nat :=
  if c.isDigit then some (c.toNat - 48) else none

/-- Value of a digit string (empty list evaluates to 0; callers guard
emptiness where Python would reject it). -/
def digitsVal (cs : List Char) : Option Nat :=
  cs.foldl
    (fun acc c =>
      match acc, digVal c with
      | some a, some d => some (a * 10 + d)
      | _, _ => none)
    (some 0)

/-- The fragment of Python `float(string)` the webhook relies on: an optional
sign, digits, an optional fractional part.  `none` models the `ValueError`
that the handler's outer `except` turns into an HTTP 500. -/
def parseDecimal (s : String) : Option Rat :=
  let neg := s.startsWith "-"
  let body := if neg then s.drop 1 else s
  match body.splitOn "." with
  | [intPart] =>
      if intPart.isEmpty then none
      else (digitsVal intPart.toList).map (fun n => if neg then -(n : Rat) else (n : Rat))
  | [intPart, fracPart] =>
      if intPart.isEmpty && fracPart.isEmpty then none
      else
        match digitsVal intPart.toList, digitsVal fracPart.toList with
        | some i, some f =>
            let q : Rat := (i : Rat) + (f : Rat) / ((10 : Rat) ^ fracPart.length)
            some (if neg then -q else q)
        | _, _ => none
  | _ => none

/-- Python `float(value)` on the values the payload can hold. -/
def pyFloat : PyVal → Option Rat
  | .num q => some q
  | .str s => parseDecimal s
  | .dict _ => none

/-- One row of the `Cashfree Webhook Log` doctype. -/
structure WebhookLog where
  transfer_id : String
  webhook_event : String
  raw_payload : String
  signature : Option String
  headers : String
  status : String
  retry_count : Nat
  error_log : String := ""
  payment_entry : String := ""
  payment_request : String := ""
  validation_results : String := ""
deriving Repr, DecidableEq

/-- Replace the first row keyed by `u.transfer_id` with `u`
(`doc.save()` on a row fetched by its unique key). -/
def replaceLog : List WebhookLog → WebhookLog → List WebhookLog
  | [], _ => []
  | l :: ls, u => if l.transfer_id == u.transfer_id then u :: ls else l :: replaceLog ls u

/-- `create_webhook_log` (webhook.py lines 179-218): look up an existing row by
transfer id; if found, bump `retry_count` and overwrite `status`
(the event type field is left untouched); otherwise insert a fresh row with
`retry_count = 0`.  Returns the updated table and the handle (the transfer id
the row is keyed by). -/
def create_webhook_log (logs : List WebhookLog) (transfer_id webhook_event raw_payload : String)
    (signature : Option String) (headers : String) (status : String) :
    List WebhookLog × String :=
  match logs.find? (fun l => l.transfer_id == transfer_id) with
  | some log =>
      let updated := { log with retry_count := log.retry_count + 1, status := status }
      (replaceLog logs updated, transfer_id)
  | none =>
      let log : WebhookLog :=
        { transfer_id := transfer_id, webhook_event := webhook_event,
          raw_payload := raw_payload, signature := signature,
          headers := headers, status := status, retry_count := 0 }
      (logs ++ [log], transfer_id)

/-- The field set an `update_webhook_log` call may overwrite (webhook.py lines
221-231 receive these as a dict of `db_set` updates).  The raw payload,
event type, signature and retry count are never in such a dict. -/
structure LogPatch where
  status : Option String := none
  error_log : Option String := none
  payment_entry : Option String := none
  payment_request : Option String := none
  validation_results : Option String := none
deriving Repr

/-- Apply a patch to one row. -/
def applyPatch (l : WebhookLog) (p : LogPatch) : WebhookLog :=
  { l with
    status := p.status.getD l.status,
    error_log := p.error_log.getD l.error_log,
    payment_entry := p.payment_entry.getD l.payment_entry,
    payment_request := p.payment_request.getD l.payment_request,
    validation_results := p.validation_results.getD l.validation_results }

/-- `update_webhook_log`: patch the row a handle designates; a handle that
matches no row is a no-op. -/
def update_webhook_log (logs : List WebhookLog) (handle : String) (p : LogPatch) :
    List WebhookLog :=
  match logs.find? (fun l => l.transfer_id == handle) with
  | some log => replaceLog logs (applyPatch log p)
  | none => logs

/-- The `Payment Request` fields the webhook core reads and writes. -/
structure PaymentRequest where
  name : String
  party_type : String
  party : String
  grand_total : Rat
  company : String
  currency : String
  reference_doctype : Option String := none
  reference_name : Option String := none
  mode_of_payment : Option String := none
  custom_cashfree_payout_id : Option String := none
  custom_reconciliation_status : String := ""
  custom_failure_reason : String := ""
deriving Repr, DecidableEq

/-- One row of a purchase order's payment schedule. -/
structure ScheduleTerm where
  payment_term : String
  outstanding : Rat
deriving Repr, DecidableEq

/-- The `Purchase Order` fields the allocation logic reads. -/
structure PurchaseOrder where
  name : String
  grand_total : Rat
  advance_paid : Option Rat := none
  payment_schedule : List ScheduleTerm := []
deriving Repr, DecidableEq

/-- The `Purchase Invoice` fields the allocation logic reads. -/
structure PurchaseInvoice where
  name : String
  outstanding_amount : Option Rat := none
deriving Repr, DecidableEq

/-- One allocation line appended to a Payment Entry's `references` table. -/
structure AllocationLine where
  reference_doctype : String
  reference_name : String
  allocated_amount : Rat
  payment_term : Option String := none
deriving Repr, DecidableEq

/-- The `Payment Entry` fields the webhook core writes (`docstatus`: 0 draft,
1 submitted, 2 cancelled). -/
structure PaymentEntry where
  name : String
  payment_type : String
  party_type : String
  party : String
  company : String
  mode_of_payment : String
  paid_from : String
  paid_to : Option String
  paid_from_account_currency : String
  paid_to_account_currency : String
  paid_amount : Rat
  received_amount : Rat
  reference_no : Option String
  remarks : String
  references : List AllocationLine
  docstatus : Nat
deriving Repr, DecidableEq

/-- The `Account` fields `get_cashfree_bank_account` filters on. -/
structure Account where
  name : String
  account_name : String
  company : String
  account_type : String
  is_group : Bool
deriving Repr, DecidableEq

/-- The `Company` fields the handler reads. -/
structure Company where
  name : String
  abbr : String
  default_payable_account : Option String := none
deriving Repr, DecidableEq

/-- A `Party Account` child row. -/
structure PartyAccount where
  parent : String
  parenttype : String
  company : String
  account : String
deriving Repr, DecidableEq

/-- The `Cashfree Payout Log` fields the handler writes. -/
structure PayoutLog where
  payment_request : String
  status : String
deriving Repr, DecidableEq

/-- The slice of the site database the webhook core touches. -/
structure DB where
  webhook_logs : List WebhookLog := []
  payment_requests : List PaymentRequest := []
  payment_entries : List PaymentEntry := []
  purchase_orders : List PurchaseOrder := []
  purchase_invoices : List PurchaseInvoice := []
  accounts : List Account := []
  party_accounts : List PartyAccount := []
  companies : List Company := []
  payout_logs : List PayoutLog := []
  mode_of_payment_cashfree : Bool := false
deriving Repr, DecidableEq

/-- Ambient facts the handler consumes that live outside the repository: the
decrypted shared secret, the HMAC-SHA256+base64 primitive (standard library),
whether the external ledger accepts `pe.submit()` (the fault the spec's
finalize-failure scenario injects) and the wall clock used for the
`UNKNOWN-<ts>` fallback id. -/
structure Env where
  secret : Option String := none
  hmacB64 : String → String → String := fun _ m => m
  submit_ok : Bool := true
  submit_error : String := "submit failed"
  now : Nat := 0

/-- Substring test used for the SQL `LIKE '%Cashfree%'` fallback. -/
def strContains (hay needle : String) : Bool :=
  (hay.splitOn needle).length != 1

/-- `get_cashfree_bank_account` (webhook.py lines 627-658): primary-name
lookup, then an exact filter, then the `LIKE` fallback. -/
def get_cashfree_bank_account (db : DB) (company : String) : Option String :=
  let company_abbr :=
    match db.companies.find? (fun c => c.name == company) with
    | some c => c.abbr
    | none => "None"
  let account_name := "Cashfree - " ++ company_abbr
  match db.accounts.find? (fun a => a.name == account_name) with
  | some a => some a.name
  | none =>
    match db.accounts.find? (fun a =>
        a.account_name == "Cashfree" && a.company == company &&
        a.account_type == "Bank" && a.is_group == false) with
    | some a => some a.name
    | none =>
      match db.accounts.find? (fun a =>
          a.company == company && a.account_type == "Bank" && a.is_group == false &&
          strContains a.account_name "Cashfree") with
      | some a => some a.name
      | none => none

/-- Lexicographic comparison of character lists by code point, the order
Python's `sorted` applies to strings. -/
def charListLe : List Char → List Char → Bool
  | [], _ => true
  | _ :: _, [] => false
  | a :: as, b :: bs =>
      if a.toNat < b.toNat then true
      else if b.toNat < a.toNat then false
      else charListLe as bs

/-- Lexicographic string comparison. -/
def strLe (a b : String) : Bool := charListLe a.data b.data

/-- Insert a string into a lexicographically sorted list. -/
def insertSorted (x : String) : List String → List String
  | [] => [x]
  | y :: ys => if strLe x y then x :: y :: ys else y :: insertSorted x ys

/-- `sorted(keys)`. -/
def sortStrings (xs : List String) : List String :=
  xs.foldr insertSorted []

/-- The string the V1 verifier signs (webhook.py lines 678-685): drop
`signature` and the Frappe-injected `cmd`/`doctype` keys, sort the remaining
keys, and concatenate the VALUES (`str(stripped[k])`) with no separator. -/
def schemeA_payload (data : PyDict) : String :=
  let stripped := data.filter (fun p => !(p.1 == "signature" || p.1 == "cmd" || p.1 == "doctype"))
  let sorted_keys := sortStrings (stripped.map (fun p => p.1))
  String.join (sorted_keys.map (fun k => ((pget stripped k).getD (.str "")).asStr))

/-- The string the spec's §4.1 Scheme A wording describes instead: the
concatenation of the sorted KEY=VALUE pairs.  Kept only to compare against
the payload the source actually signs. -/
def schemeA_payload_spec (data : PyDict) : String :=
  let stripped := data.filter (fun p => !(p.1 == "signature" || p.1 == "cmd" || p.1 == "doctype"))
  let sorted_keys := sortStrings (stripped.map (fun p => p.1))
  String.join (sorted_keys.map (fun k => k ++ "=" ++ ((pget stripped k).getD (.str "")).asStr))

/-- `verify_cashfree_signature_v1` (webhook.py lines 661-694): fail closed
without a secret, otherwise constant-time-compare the received signature with
the base64 HMAC of the scheme-A payload. -/
def verify_cashfree_signature_v1 (env : Env) (data : PyDict) (received_signature : String) :
    Bool :=
  match env.secret with
  | none => false
  | some secret => env.hmacB64 secret (schemeA_payload data) == received_signature

/-- `verify_cashfree_signature_v2` (webhook.py lines 697-721): HMAC over
`timestamp ++ raw_body` with the timestamp header defaulting to the empty
string. -/
def verify_cashfree_signature_v2 (env : Env) (headers : List (String × String))
    (raw_body : String) (received_signature : String) : Bool :=
  match env.secret with
  | none => false
  | some secret =>
      let timestamp := (hget headers "x-webhook-timestamp").getD ""
      env.hmacB64 secret (timestamp ++ raw_body) == received_signature

/-- The allocation outcome: reference lines for the draft Payment Entry plus
the audit strings the handler accumulates. -/
structure AllocationOut where
  lines : List AllocationLine := []
  passed : List String := []
  warnings : List String := []
  note : String := ""
deriving Repr, DecidableEq

/-- The Purchase Order branch of VALIDATION 6 (webhook.py lines 423-453):
outstanding is `grand_total - (advance_paid or 0)`; a positive outstanding
gets `min amount outstanding` allocated (carrying the first payment-schedule
term that still has outstanding), a shortfall is annotated as advance; a
non-positive outstanding allocates nothing and warns. -/
def allocate_po (amount : Rat) (ref_name : String) (po : PurchaseOrder) : AllocationOut :=
  let outstanding := po.grand_total - (po.advance_paid.getD 0)
  if 0 < outstanding then
    let allocated_amt := min amount outstanding
    let payment_term :=
      if 0 < po.payment_schedule.length then
        (po.payment_schedule.find? (fun t => 0 < t.outstanding)).map (fun t => t.payment_term)
      else none
    let line : AllocationLine :=
      { reference_doctype := "Purchase Order", reference_name := ref_name,
        allocated_amount := allocated_amt, payment_term := payment_term }
    let base : AllocationOut :=
      { lines := [line],
        passed := ["Allocated " ++ toString allocated_amt ++ " to " ++ ref_name],
        warnings := [],
        note := "Allocated to PO: " ++ ref_name }
    if allocated_amt < amount then
      { base with
        warnings := [toString (amount - allocated_amt) ++ " recorded as advance"],
        note := base.note ++ " Advance: " ++ toString (amount - allocated_amt) }
    else base
  else
    { lines := [], passed := [],
      warnings := ["PO has no outstanding - recorded as advance"],
      note := "PO fully paid - Amount recorded as advance" }

/-- The Purchase Invoice branch of VALIDATION 6 (webhook.py lines 455-476):
`outstanding` is the stored field (`None` when the row is missing); the
truthiness test `if outstanding and outstanding > 0` collapses to
`0 < outstanding.getD 0`. -/
def allocate_pi (amount : Rat) (ref_name : String) (outstanding : Option Rat) : AllocationOut :=
  if 0 < outstanding.getD 0 then
    let o := outstanding.getD 0
    let allocated_amt := min amount o
    let line : AllocationLine :=
      { reference_doctype := "Purchase Invoice", reference_name := ref_name,
        allocated_amount := allocated_amt }
    let base : AllocationOut :=
      { lines := [line],
        passed := ["Allocated " ++ toString allocated_amt ++ " to " ++ ref_name],
        warnings := [],
        note := "Allocated to PI: " ++ ref_name }
    if allocated_amt < amount then
      { base with
        warnings := [toString (amount - allocated_amt) ++ " recorded as advance"],
        note := base.note ++ " Advance: " ++ toString (amount - allocated_amt) }
    else base
  else
    { lines := [], passed := [],
      warnings := ["PI already paid - recorded as advance"],
      note := "PI already paid - Amount recorded as advance" }

/-- VALIDATION 6 dispatch (webhook.py lines 419-481): no reference document
means no allocation; a Purchase Order that cannot be loaded raises inside the
inner try and degrades to a warning. -/
def smart_allocation (db : DB) (pr : PaymentRequest) (amount : Rat) : AllocationOut :=
  match pr.reference_doctype, pr.reference_name with
  | some rdt, some rn =>
      if rdt == "Purchase Order" then
        match db.purchase_orders.find? (fun po => po.name == rn) with
        | some po => allocate_po amount rn po
        | none =>
            { lines := [], passed := [],
              warnings := ["Reference allocation failed: Purchase Order " ++ rn ++ " not found"],
              note := "Allocation skipped: Purchase Order " ++ rn ++ " not found" }
      else if rdt == "Purchase Invoice" then
        allocate_pi amount rn
          ((db.purchase_invoices.find? (fun pinv => pinv.name == rn)).bind
            (fun pinv => pinv.outstanding_amount))
      else {}
  | _, _ => {}

/-- VALIDATION 1 (webhook.py lines 254-273): exact primary-name match first,
then the `custom_cashfree_payout_id` fallback. -/
def resolve_payment_request (db : DB) (transfer_id : String) : Option PaymentRequest :=
  match db.payment_requests.find? (fun pr => pr.name == transfer_id) with
  | some pr => some pr
  | none => db.payment_requests.find? (fun pr => pr.custom_cashfree_payout_id == some transfer_id)

/-- The JSON body + HTTP code pair every branch of the handler returns. -/
structure Response where
  status : String
  message : String := ""
  http : Nat
  payment_entry : Option String := none
deriving Repr, DecidableEq

/-- The payment fields STEP 4 extracts. -/
structure PaymentData where
  transfer_id : String
  utr : Option String := none
  amount : Rat := 0
  status : Option String := none
deriving Repr, DecidableEq

/-- `create_payment_entry_with_validation` (webhook.py lines 234-600).
Branches, in source order: Payment Request lookup (404 on miss), duplicate
Payment Entry check on (`reference_no` = UTR, party, not-cancelled), Cashfree
clearing account (500 on miss), supplier account with company-default
fallback, Mode of Payment auto-creation, draft Payment Entry build with smart
allocation, then the submit decision.  Both fatal-validation sites return
early, so the decision point always attempts `pe.submit()`; a submit failure
keeps the draft and reports `partial_success`. -/
def create_payment_entry_with_validation (env : Env) (db : DB) (payment_data : PaymentData)
    (webhook_log : String) : Response × DB :=
  let transfer_id := payment_data.transfer_id
  let utr := payment_data.utr
  let amount := payment_data.amount
  match resolve_payment_request db transfer_id with
  | none =>
      let logs := update_webhook_log db.webhook_logs webhook_log
        { status := some "Validation Failed",
          validation_results := some ("PR not found for Transfer ID: " ++ transfer_id) }
      ({ status := "error", message := "Payment Request not found", http := 404 },
       { db with webhook_logs := logs })
  | some pr_name =>
      let logs0 := update_webhook_log db.webhook_logs webhook_log
        { payment_request := some pr_name.name }
      match db.payment_entries.find? (fun pe =>
          pe.reference_no == utr && pe.party == pr_name.party && pe.docstatus != 2) with
      | some existing_pe =>
          let logs := update_webhook_log logs0 webhook_log
            { status := some "Duplicate", payment_entry := some existing_pe.name,
              validation_results := some ("PE already exists: " ++ existing_pe.name) }
          ({ status := "success", message := "Payment already processed", http := 200,
             payment_entry := some existing_pe.name },
           { db with webhook_logs := logs })
      | none =>
          match get_cashfree_bank_account db pr_name.company with
          | none =>
              let logs := update_webhook_log logs0 webhook_log
                { status := some "Validation Failed",
                  validation_results :=
                    some ("Cashfree account not found for company " ++ pr_name.company) }
              ({ status := "error", message := "Cashfree account not configured", http := 500 },
               { db with webhook_logs := logs })
          | some cashfree_account =>
              let supplier_account :=
                match db.party_accounts.find? (fun pa =>
                    pa.parent == pr_name.party && pa.parenttype == "Supplier" &&
                    pa.company == pr_name.company) with
                | some pa => some pa.account
                | none =>
                    (db.companies.find? (fun c => c.name == pr_name.company)).bind
                      (fun c => c.default_payable_account)
              let db1 := { db with mode_of_payment_cashfree := true }
              let alloc := smart_allocation db1 pr_name amount
              let pe : PaymentEntry :=
                { name := "PE-" ++ toString (db1.payment_entries.length + 1),
                  payment_type := "Pay",
                  party_type := pr_name.party_type, party := pr_name.party,
                  company := pr_name.company, mode_of_payment := "Cashfree",
                  paid_from := cashfree_account, paid_to := supplier_account,
                  paid_from_account_currency := pr_name.currency,
                  paid_to_account_currency := pr_name.currency,
                  paid_amount := amount, received_amount := amount,
                  reference_no := utr,
                  remarks := "Payment via Cashfree Payout | Payment Request: " ++ pr_name.name ++
                    " | UTR: " ++ (utr.getD "None") ++ " | Transfer ID: " ++ transfer_id ++
                    " | Status: SUCCESS" ++ alloc.note,
                  references := alloc.lines, docstatus := 0 }
              let logs1 := update_webhook_log logs0 webhook_log
                { status := some "PE Draft Created" }
              let logs2 := update_webhook_log logs1 webhook_log
                { payment_entry := some pe.name }
              let db2 := { db1 with
                payment_entries := db1.payment_entries ++ [pe],
                webhook_logs := logs2 }
              if env.submit_ok then
                let db3 := { db2 with
                  payment_entries := db2.payment_entries.map (fun q =>
                    if q.name == pe.name then { q with docstatus := 1 } else q),
                  webhook_logs := update_webhook_log db2.webhook_logs webhook_log
                    ({ status := some "PE Submitted" }),
                  payment_requests := db2.payment_requests.map (fun q =>
                    if q.name == pr_name.name then
                      { q with custom_reconciliation_status := "Success" }
                    else q),
                  payout_logs := db2.payout_logs.map (fun q =>
                    if q.payment_request == pr_name.name then { q with status := "Success" }
                    else q) }
                ({ status := "success", message := "All checks passed - PE submitted",
                   http := 200, payment_entry := some pe.name }, db3)
              else
                let db3 := { db2 with
                  webhook_logs := update_webhook_log db2.webhook_logs webhook_log
                    ({ status := some "Validation Failed",
                       error_log := some env.submit_error,
                       validation_results := some ("PE Submission: " ++ env.submit_error) }) }
                ({ status := "partial_success",
                   message := "PE created in draft - submission failed - review required",
                   http := 200, payment_entry := some pe.name }, db3)

/-- The failure reason picked out of the payload:
`data.get("reason") or data.get("failure_reason") or ""`. -/
def webhook_failure_reason (data : PyDict) : String :=
  (((pgetT data "reason").orElse (fun _ => pgetT data "failure_reason")).map
    PyVal.asStr).getD ""

/-- The status an event maps to: `TRANSFER_FAILED → Failed`,
`TRANSFER_REVERSED → Reversed`, anything else `Pending`. -/
def event_status (event_type : String) : String :=
  if pyUpper event_type == "TRANSFER_FAILED" then "Failed"
  else if pyUpper event_type == "TRANSFER_REVERSED" then "Reversed"
  else "Pending"

/-- `update_payment_request_status` (webhook.py lines 603-624): map the event
to a reconciliation status, take the first truthy failure reason, and update
every Payment Request matched by name OR stored payout id.  Exactly the two
named columns are written; in particular `custom_cashfree_payout_id` is left
as it was. -/
def update_payment_request_status (db : DB) (transfer_id event_type : String)
    (data : PyDict) : DB :=
  let new_status := event_status event_type
  let failure_reason := webhook_failure_reason data
  { db with
    payment_requests := db.payment_requests.map (fun pr =>
      if pr.name == transfer_id || pr.custom_cashfree_payout_id == some transfer_id then
        { pr with custom_reconciliation_status := new_status,
                  custom_failure_reason := failure_reason }
      else pr) }

/-- Externally visible effects in call order, for the temporal claim about
logging before verification. -/
inductive Ev where
  | recordLog
  | verifySig
deriving Repr, DecidableEq

/-- Response, final database and event trace of one handler invocation. -/
structure HandlerOut where
  resp : Response
  db : DB
  trace : List Ev
deriving Repr

/-- STEP 4 amount extraction (webhook.py line 135):
`float(transfer_data.get("amount", 0)) if transfer_data.get("amount") else 0`.
`none` models the `float()` exception. -/
def extract_amount (transfer_data : PyDict) : Option Rat :=
  match pgetT transfer_data "amount" with
  | some v => pyFloat v
  | none => some 0

/-- STEPS 4-5 (webhook.py lines 132-157): assemble the payment data, reject a
missing transfer id with 400, otherwise run the settlement writer. -/
def webhook_finish (env : Env) (db : DB) (transfer_data : PyDict) (tid2 : Option String)
    (utr : Option String) (amount : Rat) (webhook_log : String) (trace : List Ev) :
    HandlerOut :=
  match tid2 with
  | none =>
      { resp := { status := "error", message := "Missing transfer_id", http := 400 },
        db := { db with
                webhook_logs := update_webhook_log db.webhook_logs webhook_log
                  ({ status := some "Error",
                     error_log := some "No transfer_id found in payload" }) },
        trace := trace }
  | some tid =>
      let pd : PaymentData :=
        { transfer_id := tid, utr := utr, amount := amount,
          status := (((pgetT transfer_data "transferStatus").orElse
            (fun _ => pgetT transfer_data "status")).map PyVal.asStr) }
      let (resp, db2) := create_payment_entry_with_validation env db pd webhook_log
      { resp := resp, db := db2, trace := trace }

/-- STEPS 3-5 after a verified (or absent-but-tolerated) signature
(webhook.py lines 104-157): mark the log verified, short-circuit non-success
events (updating the Payment Request for failures/reversals), otherwise
extract the nested transfer data and continue. -/
def webhook_after_signature (env : Env) (db : DB) (data : PyDict)
    (transfer_id : Option String) (event_type : String) (webhook_log : String)
    (trace : List Ev) : HandlerOut :=
  let dbv := { db with
               webhook_logs := update_webhook_log db.webhook_logs webhook_log
                 ({ status := some "Signature Verified" }) }
  if pyUpper event_type != "TRANSFER_SUCCESS" then
    let dbi := { dbv with
                 webhook_logs := update_webhook_log dbv.webhook_logs webhook_log
                   ({ status := some "Ignored",
                      error_log := some ("Event type " ++ event_type ++ " not processed") }) }
    let dbf :=
      match transfer_id with
      | some tid =>
          if pyUpper event_type == "TRANSFER_FAILED" ||
             pyUpper event_type == "TRANSFER_REVERSED" then
            update_payment_request_status dbi tid event_type data
          else dbi
      | none => dbi
    { resp := { status := "ignored",
                message := "Event " ++ event_type ++ " not processed",
                http := 200 },
      db := dbf, trace := trace }
  else
    let transfer_data :=
      match pget data "data" with
      | some (.dict d) =>
          match pgetT d "transfer" with
          | some (.dict t) => t
          | _ => d
      | _ => data
    let tid2 :=
      (((pgetT transfer_data "transferId").orElse
        (fun _ => pgetT transfer_data "transfer_id")).map PyVal.asStr).orElse
        (fun _ => transfer_id)
    let utr := (pget transfer_data "utr").map PyVal.asStr
    match extract_amount transfer_data with
    | none =>
        { resp := { status := "error", message := "Internal server error", http := 500 },
          db := { dbv with
                  webhook_logs := update_webhook_log dbv.webhook_logs webhook_log
                    ({ status := some "Error",
                       error_log := some "could not convert amount to float" }) },
          trace := trace }
    | some amount => webhook_finish env dbv transfer_data tid2 utr amount webhook_log trace

/-- `data.get("transferId") or data.get("transfer_id")` (webhook.py line 53). -/
def extracted_transfer_id (data : PyDict) : Option String :=
  ((pgetT data "transferId").orElse (fun _ => pgetT data "transfer_id")).map PyVal.asStr

/-- `data.get("event") or "UNKNOWN"` (webhook.py line 54). -/
def extracted_event_type (data : PyDict) : String :=
  (((pgetT data "event").map PyVal.asStr)).getD "UNKNOWN"

/-- The key the webhook-log row is created under (webhook.py line 58). -/
def log_transfer_id (env : Env) (data : PyDict) : String :=
  (extracted_transfer_id data).getD ("UNKNOWN-" ++ toString env.now)

/-- `cashfree_payout_webhook` (webhook.py lines 13-176): record the webhook
log first, then validate the signature (body scheme first, then header
scheme, reject when neither is present), then continue. -/
def cashfree_payout_webhook (env : Env) (db : DB) (raw_body : String) (data : PyDict)
    (headers : List (String × String)) : HandlerOut :=
  let transfer_id := extracted_transfer_id data
  let event_type := extracted_event_type data
  let log_signature :=
    (hgetT headers "x-webhook-signature").orElse
      (fun _ => (pgetT data "signature").map PyVal.asStr)
  let created := create_webhook_log db.webhook_logs
    (log_transfer_id env data) event_type raw_body
    log_signature "" "Received"
  let db0 := { db with webhook_logs := created.1 }
  let webhook_log := created.2
  match (pgetT data "signature").map PyVal.asStr with
  | some s =>
      if verify_cashfree_signature_v1 env data s then
        webhook_after_signature env db0 data transfer_id event_type webhook_log
          [.recordLog, .verifySig]
      else
        { resp := { status := "error", message := "Invalid signature", http := 401 },
          db := { db0 with
                  webhook_logs := update_webhook_log db0.webhook_logs webhook_log
                    ({ status := some "Signature Failed",
                       error_log := some "V1 signature verification failed" }) },
          trace := [.recordLog, .verifySig] }
  | none =>
      match hgetT headers "x-webhook-signature" with
      | some s =>
          if verify_cashfree_signature_v2 env headers raw_body s then
            webhook_after_signature env db0 data transfer_id event_type webhook_log
              [.recordLog, .verifySig]
          else
            { resp := { status := "error", message := "Invalid signature", http := 401 },
              db := { db0 with
                      webhook_logs := update_webhook_log db0.webhook_logs webhook_log
                        ({ status := some "Signature Failed",
                           error_log := some "V2 signature verification failed" }) },
              trace := [.recordLog, .verifySig] }
      | none =>
          { resp := { status := "error", message := "Missing signature", http := 401 },
            db := { db0 with
                    webhook_logs := update_webhook_log db0.webhook_logs webhook_log
                      ({ status := some "Signature Failed",
                         error_log := some "No signature provided" }) },
            trace := [.recordLog] }

/-- Number of webhook-log rows keyed by a transfer id. -/
def countLog (logs : List WebhookLog) (tid : String) : Nat :=
  (logs.filter (fun l => l.transfer_id == tid)).length

/-- The row `frappe.db.exists` + `frappe.get_doc` would fetch for a transfer
id (the first match). -/
def lookupLog (logs : List WebhookLog) (tid : String) : Option WebhookLog :=
  logs.find? (fun l => l.transfer_id == tid)

theorem applyPatch_transfer_id (l : WebhookLog) (p : LogPatch) :
    (applyPatch l p).transfer_id = l.transfer_id := rfl

theorem applyPatch_raw_payload (l : WebhookLog) (p : LogPatch) :
    (applyPatch l p).raw_payload = l.raw_payload := rfl

theorem applyPatch_webhook_event (l : WebhookLog) (p : LogPatch) :
    (applyPatch l p).webhook_event = l.webhook_event := rfl

theorem applyPatch_retry_count (l : WebhookLog) (p : LogPatch) :
    (applyPatch l p).retry_count = l.retry_count := rfl

/-- Replacing a row keeps the multiplicity of its key. -/
theorem countLog_replaceLog (logs : List WebhookLog) (u : WebhookLog) :
    countLog (replaceLog logs u) u.transfer_id = countLog logs u.transfer_id := by
  induction logs with
  | nil => rfl
  | cons x xs ih =>
      by_cases hx : x.transfer_id = u.transfer_id
      · have hb : (x.transfer_id == u.transfer_id) = true := by simp [hx]
        simp [replaceLog, hb, countLog, List.filter_cons, hx]
      · have hb : (x.transfer_id == u.transfer_id) = false := by simp [hx]
        simp only [replaceLog, hb, Bool.false_eq_true, if_false]
        simp only [countLog, List.filter_cons, hb] at ih ⊢
        exact ih

/-- If some row carries the key, replacing installs the new row as the first
match. -/
theorem lookupLog_replaceLog (logs : List WebhookLog) (u : WebhookLog)
    (h : (lookupLog logs u.transfer_id).isSome) :
    lookupLog (replaceLog logs u) u.transfer_id = some u := by
  induction logs with
  | nil => simp [lookupLog] at h
  | cons x xs ih =>
      by_cases hx : x.transfer_id = u.transfer_id
      · have hb : (x.transfer_id == u.transfer_id) = true := by simp [hx]
        simp only [replaceLog, hb, if_true]
        unfold lookupLog
        exact List.find?_cons_of_pos _ (by simp)
      · have hb : (x.transfer_id == u.transfer_id) = false := by simp [hx]
        have hneg : ¬ ((fun l => l.transfer_id == u.transfer_id) x = true) := by simp [hx]
        have hh : (lookupLog xs u.transfer_id).isSome := by
          have hcons : lookupLog (x :: xs) u.transfer_id = lookupLog xs u.transfer_id := by
            unfold lookupLog
            exact List.find?_cons_of_neg _ hneg
          rwa [hcons] at h
        calc lookupLog (replaceLog (x :: xs) u) u.transfer_id
            = lookupLog (x :: replaceLog xs u) u.transfer_id := by
              simp [replaceLog, hb]
          _ = lookupLog (replaceLog xs u) u.transfer_id := by
              unfold lookupLog
              exact List.find?_cons_of_neg _ hneg
          _ = some u := ih hh

/-- A key that matches no row is found after an append exactly where the
appended rows put it. -/
theorem lookupLog_append (logs ls2 : List WebhookLog) (tid : String) :
    lookupLog (logs ++ ls2) tid = ((lookupLog logs tid).or (lookupLog ls2 tid)) := by
  simp [lookupLog, List.find?_append]

theorem countLog_append (logs ls2 : List WebhookLog) (tid : String) :
    countLog (logs ++ ls2) tid = countLog logs tid + countLog ls2 tid := by
  simp [countLog, List.filter_append]

/-- Zero multiplicity is the same as an unsuccessful lookup. -/
theorem countLog_eq_zero_iff (logs : List WebhookLog) (tid : String) :
    countLog logs tid = 0 ↔ lookupLog logs tid = none := by
  simp [countLog, lookupLog, List.find?_eq_none, List.filter_eq_nil_iff]

/-- Patching through a handle rewrites exactly the looked-up row. -/
theorem lookupLog_update_self (logs : List WebhookLog) (h : String) (p : LogPatch) :
    lookupLog (update_webhook_log logs h p) h =
      (lookupLog logs h).map (fun l => applyPatch l p) := by
  unfold update_webhook_log
  cases hfind : logs.find? (fun l => l.transfer_id == h) with
  | none => simp [lookupLog, hfind]
  | some log =>
      have htid : log.transfer_id = h := by simpa using List.find?_some hfind
      have hsome : (lookupLog logs (applyPatch log p).transfer_id).isSome := by
        rw [applyPatch_transfer_id, htid]
        simp [lookupLog, hfind]
      have hrep := lookupLog_replaceLog logs (applyPatch log p) hsome
      rw [applyPatch_transfer_id, htid] at hrep
      have hlk : lookupLog logs h = some log := hfind
      rw [hlk, hrep]
      rfl

/-- Patching never touches the stored raw payload. -/
theorem lookupLog_update_raw (logs : List WebhookLog) (h : String) (p : LogPatch) :
    (lookupLog (update_webhook_log logs h p) h).map (fun l => l.raw_payload) =
      (lookupLog logs h).map (fun l => l.raw_payload) := by
  rw [lookupLog_update_self]
  cases lookupLog logs h <;> simp [applyPatch_raw_payload]

/-- The row a `create_webhook_log` call leaves behind: on a fresh key the
table grows by the new row; on a seen key the first matching row gets its
retry count bumped and its status replaced, and nothing else changes. -/
theorem create_webhook_log_fresh (logs : List WebhookLog)
    (tid ev raw : String) (sg : Option String) (hd st : String)
    (h : lookupLog logs tid = none) :
    (create_webhook_log logs tid ev raw sg hd st).1 =
      logs ++ [{ transfer_id := tid, webhook_event := ev, raw_payload := raw,
                 signature := sg, headers := hd, status := st, retry_count := 0 }] := by
  unfold create_webhook_log
  rw [show logs.find? (fun l => l.transfer_id == tid) = none from h]

theorem create_webhook_log_dup (logs : List WebhookLog)
    (tid ev raw : String) (sg : Option String) (hd st : String) (l : WebhookLog)
    (h : lookupLog logs tid = some l) :
    (create_webhook_log logs tid ev raw sg hd st).1 =
      replaceLog logs { l with retry_count := l.retry_count + 1, status := st } := by
  unfold create_webhook_log
  rw [show logs.find? (fun l => l.transfer_id == tid) = some l from h]

/-- After any `create_webhook_log` call the key resolves to a row whose
status is the one just written. -/
theorem lookupLog_create (logs : List WebhookLog)
    (tid ev raw : String) (sg : Option String) (hd st : String) :
    ∃ l, lookupLog (create_webhook_log logs tid ev raw sg hd st).1 tid = some l ∧
      l.status = st ∧ l.transfer_id = tid := by
  cases hl : lookupLog logs tid with
  | none =>
      refine ⟨{ transfer_id := tid, webhook_event := ev, raw_payload := raw,
                signature := sg, headers := hd, status := st, retry_count := 0 }, ?_, rfl, rfl⟩
      rw [create_webhook_log_fresh logs tid ev raw sg hd st hl, lookupLog_append, hl]
      unfold lookupLog
      rw [List.find?_cons_of_pos _ (by simp)]
      rfl
  | some l =>
      have htid : l.transfer_id = tid := by simpa using List.find?_some hl
      have hut : ({ l with retry_count := l.retry_count + 1, status := st } :
        WebhookLog).transfer_id = l.transfer_id := rfl
      have hsome : (lookupLog logs
          ({ l with retry_count := l.retry_count + 1, status := st } :
            WebhookLog).transfer_id).isSome := by
        rw [hut, htid, hl]; rfl
      refine ⟨{ l with retry_count := l.retry_count + 1, status := st }, ?_, rfl,
        by rw [hut, htid]⟩
      rw [create_webhook_log_dup logs tid ev raw sg hd st l hl]
      have hti2 : ({ l with retry_count := l.retry_count + 1, status := st } :
          WebhookLog).transfer_id = tid := by rw [hut, htid]
      rw [← hti2]
      exact lookupLog_replaceLog logs _ hsome

/-- First sight of a transfer id: the ledger gains exactly one row for it,
with retry count 0 and the delivered event and payload. -/
theorem create_webhook_log_first (logs : List WebhookLog) (tid ev raw : String)
    (sg : Option String) (hd st : String) (h0 : countLog logs tid = 0) :
    countLog (create_webhook_log logs tid ev raw sg hd st).1 tid = 1 ∧
    lookupLog (create_webhook_log logs tid ev raw sg hd st).1 tid =
      some { transfer_id := tid, webhook_event := ev, raw_payload := raw,
             signature := sg, headers := hd, status := st, retry_count := 0 } := by
  have hnone : lookupLog logs tid = none := (countLog_eq_zero_iff logs tid).mp h0
  rw [create_webhook_log_fresh logs tid ev raw sg hd st hnone]
  constructor
  · rw [countLog_append, h0]
    simp [countLog, List.filter_cons]
  · rw [lookupLog_append, hnone]
    unfold lookupLog
    rw [List.find?_cons_of_pos _ (by simp)]
    rfl

/-- Redelivery of a uniquely-logged transfer id: the row stays unique, its
retry count goes up by one and its status is overwritten; event type and raw
payload are untouched. -/
theorem create_webhook_log_redeliver (logs : List WebhookLog) (tid ev raw : String)
    (sg : Option String) (hd st : String) (l : WebhookLog)
    (hl : lookupLog logs tid = some l) (hc : countLog logs tid = 1) :
    countLog (create_webhook_log logs tid ev raw sg hd st).1 tid = 1 ∧
    lookupLog (create_webhook_log logs tid ev raw sg hd st).1 tid =
      some { l with retry_count := l.retry_count + 1, status := st } := by
  have htid : l.transfer_id = tid := by simpa using List.find?_some hl
  subst htid
  rw [create_webhook_log_dup logs l.transfer_id ev raw sg hd st l hl]
  have hsome : (lookupLog logs ({ l with retry_count := l.retry_count + 1, status := st } :
      WebhookLog).transfer_id).isSome := by
    rw [show ({ l with retry_count := l.retry_count + 1, status := st } :
      WebhookLog).transfer_id = l.transfer_id from rfl, hl]
    rfl
  constructor
  · have hcnt := countLog_replaceLog logs
      { l with retry_count := l.retry_count + 1, status := st }
    exact hcnt.trans hc
  · exact lookupLog_replaceLog logs
      { l with retry_count := l.retry_count + 1, status := st } hsome

/-- One inbound delivery, as the idempotency ledger sees it (the handler
always records with processing status Received). -/
structure Delivery where
  event : String
  payload : String
  signature : Option String := none
  status : String := "Received"
deriving Repr, DecidableEq

/-- Feed a sequence of deliveries carrying the same transfer id to
`create_webhook_log`, threading the ledger state. -/
def deliverAll (tid : String) : List WebhookLog → List Delivery → List WebhookLog
  | logs, [] => logs
  | logs, d :: rest =>
      deliverAll tid
        (create_webhook_log logs tid d.event d.payload d.signature "" d.status).1 rest

/-- Redeliveries starting from a uniquely-logged id: uniqueness persists, the
retry count grows by the number of redeliveries, and the first-recorded event
type and raw payload persist. -/
theorem deliverAll_existing (tid : String) (ds : List Delivery) :
    ∀ (logs : List WebhookLog) (l : WebhookLog),
      lookupLog logs tid = some l → countLog logs tid = 1 →
      countLog (deliverAll tid logs ds) tid = 1 ∧
      ∃ l2, lookupLog (deliverAll tid logs ds) tid = some l2 ∧
        l2.retry_count = l.retry_count + ds.length ∧
        l2.webhook_event = l.webhook_event ∧ l2.raw_payload = l.raw_payload := by
  induction ds with
  | nil =>
      intro logs l hl hc
      exact ⟨hc, l, hl, by simp, rfl, rfl⟩
  | cons d rest ih =>
      intro logs l hl hc
      have hstep := create_webhook_log_redeliver logs tid d.event d.payload d.signature ""
        d.status l hl hc
      have hrec := ih _ _ hstep.2 hstep.1
      refine ⟨hrec.1, ?_⟩
      obtain ⟨l2, h1, h2, h3, h4⟩ := hrec.2
      refine ⟨l2, h1, ?_, h3, h4⟩
      have h2' : l2.retry_count = l.retry_count + 1 + rest.length := h2
      simp [List.length_cons]
      omega

/-- C2 counterexample: deliver the same transfer id twice, first as
TRANSFER_SUCCESS and then as TRANSFER_FAILED.  The single resulting log row
has retry_count 1 as claimed, but its event type still reads
TRANSFER_SUCCESS: the duplicate branch of `create_webhook_log` bumps the
retry count and overwrites the status only, so the claimed update of the
existing row's event type does not happen. -/
theorem c2_event_type_not_updated :
    (lookupLog (deliverAll "T1" [] [{ event := "TRANSFER_SUCCESS", payload := "p1" },
        { event := "TRANSFER_FAILED", payload := "p2" }]) "T1").map
      (fun l => l.webhook_event) = some "TRANSFER_SUCCESS" ∧
    some "TRANSFER_SUCCESS" ≠ some "TRANSFER_FAILED" ∧
    (lookupLog (deliverAll "T1" [] [{ event := "TRANSFER_SUCCESS", payload := "p1" },
        { event := "TRANSFER_FAILED", payload := "p2" }]) "T1").map
      (fun l => l.retry_count) = some 1 := by
  exact ⟨by decide, by decide, by decide⟩

/-- C2 (amended): delivering a transfer id N = 1 + |rest| times produces
exactly one Webhook Log Entry for it with retry_count = N - 1 (baseline 0 on
first insert); each redelivery increments the retry count and overwrites the
status without creating a second row, while the stored event type and raw
payload remain those of the first delivery (they are NOT updated). -/
theorem c2_idempotency_ledger (tid : String) (d : Delivery) (rest : List Delivery)
    (logs0 : List WebhookLog) (h0 : countLog logs0 tid = 0) :
    countLog (deliverAll tid logs0 (d :: rest)) tid = 1 ∧
    ∃ l, lookupLog (deliverAll tid logs0 (d :: rest)) tid = some l ∧
      l.retry_count = rest.length ∧
      l.webhook_event = d.event ∧ l.raw_payload = d.payload := by
  have hfirst := create_webhook_log_first logs0 tid d.event d.payload d.signature ""
    d.status h0
  have hrest := deliverAll_existing tid rest _ _ hfirst.2 hfirst.1
  refine ⟨hrest.1, ?_⟩
  obtain ⟨l2, h1, h2, h3, h4⟩ := hrest.2
  exact ⟨l2, h1, by simpa using h2, h3, h4⟩

/-- C2 witness: three deliveries of the same id leave one row with
retry_count 2 carrying the first event and payload. -/
theorem c2_idempotency_ledger_witness :
    countLog (deliverAll "T2" [] [{ event := "E1", payload := "q1" },
      { event := "E2", payload := "q2" }, { event := "E3", payload := "q3" }]) "T2" = 1 ∧
    ∃ l, lookupLog (deliverAll "T2" [] [{ event := "E1", payload := "q1" },
        { event := "E2", payload := "q2" }, { event := "E3", payload := "q3" }]) "T2" =
        some l ∧
      l.retry_count = 2 ∧ l.webhook_event = "E1" ∧ l.raw_payload = "q1" :=
  c2_idempotency_ledger "T2" { event := "E1", payload := "q1" }
    [{ event := "E2", payload := "q2" }, { event := "E3", payload := "q3" }] [] (by decide)

/-- C4: for a Purchase Order reference the engine computes
outstanding = grand_total - advance_paid; a non-positive outstanding records
the whole amount as advance with a warning and no allocation line, a positive
outstanding allocates min(amount, outstanding), and a strictly smaller
allocation leaves the remainder as advance with a warning (no warning when
the amount is fully allocated). -/
theorem c4_allocation_engine (amount : Rat) (rn : String) (po : PurchaseOrder) :
    (po.grand_total - (po.advance_paid.getD 0) ≤ 0 →
      (allocate_po amount rn po).lines = [] ∧
      (allocate_po amount rn po).warnings = ["PO has no outstanding - recorded as advance"]) ∧
    (0 < po.grand_total - (po.advance_paid.getD 0) →
      ((allocate_po amount rn po).lines.map (fun l => l.allocated_amount)) =
        [min amount (po.grand_total - (po.advance_paid.getD 0))] ∧
      (min amount (po.grand_total - (po.advance_paid.getD 0)) < amount →
        (allocate_po amount rn po).warnings =
          [toString (amount - min amount (po.grand_total - (po.advance_paid.getD 0))) ++
            " recorded as advance"]) ∧
      (amount ≤ min amount (po.grand_total - (po.advance_paid.getD 0)) →
        (allocate_po amount rn po).warnings = [])) := by
  constructor
  · intro h
    unfold allocate_po
    rw [if_neg (not_lt.mpr h)]
    exact ⟨rfl, rfl⟩
  · intro h
    unfold allocate_po
    rw [if_pos h]
    by_cases h2 : min amount (po.grand_total - (po.advance_paid.getD 0)) < amount
    · simp only [if_pos h2]
      refine ⟨by trivial, fun _ => by trivial, fun h3 => absurd h2 (not_lt.mpr h3)⟩
    · simp only [if_neg h2]
      refine ⟨by trivial, fun h3 => absurd h3 h2, fun _ => by trivial⟩

/-- C4 witness: amount 1500 against outstanding 1000 allocates 1000 with a
"500 recorded as advance" warning; against outstanding 0 nothing is allocated
and the advance warning is attached. -/
theorem c4_allocation_engine_witness :
    ((allocate_po 1500 "PO-1" { name := "PO-1", grand_total := 1000 }).lines.map
      (fun l => l.allocated_amount)) = [1000] ∧
    (allocate_po 1500 "PO-1" { name := "PO-1", grand_total := 1000 }).warnings =
      ["500 recorded as advance"] ∧
    (allocate_po 1500 "PO-1"
      { name := "PO-1", grand_total := 1000, advance_paid := some 1000 }).lines = [] ∧
    (allocate_po 1500 "PO-1"
      { name := "PO-1", grand_total := 1000, advance_paid := some 1000 }).warnings =
      ["PO has no outstanding - recorded as advance"] := by
  have hpos := (c4_allocation_engine 1500 "PO-1" { name := "PO-1", grand_total := 1000 }).2
    (by norm_num)
  have hzero := (c4_allocation_engine 1500 "PO-1"
    { name := "PO-1", grand_total := 1000, advance_paid := some 1000 }).1 (by norm_num)
  refine ⟨?_, ?_, hzero.1, hzero.2⟩
  · rw [hpos.1]
    norm_num
  · rw [hpos.2.1 (by norm_num)]
    norm_num
    decide

/-- Environment used to probe the V1 verifier: the MAC primitive is
instantiated with a transparent function so the signed string itself is
observable. -/
def c8_env : Env := { secret := some "key", hmacB64 := fun _ m => m }

/-- A structured field set with two payload keys and a signature field. -/
def c8_data : PyDict :=
  [("beneId", .str "B1"), ("transferId", .str "T1"), ("signature", .str "s")]

/-- C8 counterexample: the string the code signs is the concatenation of the
sorted VALUES ("B1T1"), not of the key=value pairs
("beneId=B1transferId=T1") the claim describes; a signature computed over the
claimed key=value string is rejected while one over the value string is
accepted. -/
theorem c8_values_not_key_value_pairs :
    schemeA_payload c8_data = "B1T1" ∧
    schemeA_payload_spec c8_data = "beneId=B1transferId=T1" ∧
    verify_cashfree_signature_v1 c8_env c8_data
      (c8_env.hmacB64 "key" (schemeA_payload_spec c8_data)) = false ∧
    verify_cashfree_signature_v1 c8_env c8_data
      (c8_env.hmacB64 "key" (schemeA_payload c8_data)) = true := by
  refine ⟨by decide, by decide, by decide, by decide⟩

/-- C8 (amended): Scheme A excludes the signature field and the
transport-injected keys, sorts the remaining keys lexicographically,
concatenates the VALUES of those keys with no separator, MACs the result
keyed by the shared secret, and succeeds exactly when the received signature
equals that MAC; a missing secret fails closed, and the excluded keys cannot
influence the signed string. -/
theorem c8_schemeA_verification (env : Env) (data : PyDict) (received : String) :
    (verify_cashfree_signature_v1 env data received = true ↔
      ∃ secret, env.secret = some secret ∧
        env.hmacB64 secret (schemeA_payload data) = received) ∧
    (env.secret = none → verify_cashfree_signature_v1 env data received = false) ∧
    (∀ v, schemeA_payload (("cmd", v) :: data) = schemeA_payload data) ∧
    (∀ v, schemeA_payload (("doctype", v) :: data) = schemeA_payload data) ∧
    (∀ v, schemeA_payload (("signature", v) :: data) = schemeA_payload data) := by
  refine ⟨?_, ?_, fun v => rfl, fun v => rfl, fun v => rfl⟩
  · unfold verify_cashfree_signature_v1
    cases hs : env.secret with
    | none => simp
    | some s => simp [beq_iff_eq]
  · intro h
    unfold verify_cashfree_signature_v1
    rw [h]

/-- C8 witness: with no configured secret the verifier rejects. -/
theorem c8_schemeA_verification_witness :
    verify_cashfree_signature_v1 { secret := none, hmacB64 := fun _ m => m } [] "x" = false :=
  (c8_schemeA_verification { secret := none, hmacB64 := fun _ m => m } [] "x").2.1 rfl

/-- The normalizing transform the spec's §4.3 rule 2 describes (underscores
to dashes).  Kept only to compare the spec's claimed resolver behaviour with
the one the source implements. -/
def specNormalize (s : String) : String :=
  String.mk (s.data.map (fun c => if c = '_' then '-' else c))

/-- A store holding a Payment Request whose name is exactly the
dash-normalized form of the incoming transfer id. -/
def c9_db : DB :=
  { payment_requests :=
      [{ name := "CF-PR-001", party_type := "Supplier", party := "ACME",
         grand_total := 100, company := "KFPL", currency := "INR" }] }

/-- C9 counterexample: for transfer id CF_PR_001 a Payment Request named
CF-PR-001 (its underscore-to-dash normalization) exists, yet the resolver
returns none and the handler answers 404 — the claimed second rule (match
after the normalizing transform) does not exist in the code. -/
theorem c9_no_normalizing_rule :
    specNormalize "CF_PR_001" = "CF-PR-001" ∧
    (c9_db.payment_requests.map (fun pr => pr.name)) = ["CF-PR-001"] ∧
    resolve_payment_request c9_db "CF_PR_001" = none ∧
    (create_payment_entry_with_validation {} c9_db { transfer_id := "CF_PR_001" } "WL").1 =
      { status := "error", message := "Payment Request not found", http := 404 } := by
  refine ⟨by decide, by decide, by decide, by decide⟩

/-- C9 (amended): the resolver tries, in order, (1) an exact match on the
Payment Request primary identifier and (2) a match on the stored secondary
payout-identifier field, the first match winning; there is no normalizing
underscore/dash rule, and when neither rule matches the handler returns a
404 not-found failure without touching payment entries or payment
requests. -/
theorem c9_reference_resolver (db : DB) (tid : String) (env : Env) (pd : PaymentData)
    (h : String) :
    (∀ pr0, db.payment_requests.find? (fun pr => pr.name == tid) = some pr0 →
      resolve_payment_request db tid = some pr0) ∧
    (db.payment_requests.find? (fun pr => pr.name == tid) = none →
      resolve_payment_request db tid =
        db.payment_requests.find? (fun pr => pr.custom_cashfree_payout_id == some tid)) ∧
    (resolve_payment_request db pd.transfer_id = none →
      (create_payment_entry_with_validation env db pd h).1 =
        { status := "error", message := "Payment Request not found", http := 404 } ∧
      (create_payment_entry_with_validation env db pd h).2.payment_entries =
        db.payment_entries ∧
      (create_payment_entry_with_validation env db pd h).2.payment_requests =
        db.payment_requests) := by
  refine ⟨?_, ?_, ?_⟩
  · intro pr0 hpr
    unfold resolve_payment_request
    rw [hpr]
  · intro hn
    unfold resolve_payment_request
    rw [hn]
  · intro hn
    unfold create_payment_entry_with_validation
    simp only [hn]
    exact ⟨by trivial, by trivial, by trivial⟩

/-- A store exercising both resolver rules. -/
def c9_db2 : DB :=
  { payment_requests :=
      [{ name := "PR-A", party_type := "Supplier", party := "P1", grand_total := 10,
         company := "C1", currency := "INR" },
       { name := "PR-B", party_type := "Supplier", party := "P2", grand_total := 20,
         company := "C1", currency := "INR", custom_cashfree_payout_id := some "TID-7" }] }

/-- C9 witness: rule 1 resolves PR-A by name, rule 2 resolves TID-7 through
the payout-identifier field, and an unmatched id yields the 404 response. -/
theorem c9_reference_resolver_witness :
    resolve_payment_request c9_db2 "PR-A" =
      some { name := "PR-A", party_type := "Supplier", party := "P1", grand_total := 10,
             company := "C1", currency := "INR" } ∧
    resolve_payment_request c9_db2 "TID-7" =
      c9_db2.payment_requests.find?
        (fun pr => pr.custom_cashfree_payout_id == some "TID-7") ∧
    (create_payment_entry_with_validation {} c9_db2 { transfer_id := "NOPE" } "WL").1 =
      { status := "error", message := "Payment Request not found", http := 404 } :=
  ⟨(c9_reference_resolver c9_db2 "PR-A" {} { transfer_id := "NOPE" } "WL").1 _ (by decide),
   (c9_reference_resolver c9_db2 "TID-7" {} { transfer_id := "NOPE" } "WL").2.1 (by decide),
   ((c9_reference_resolver c9_db2 "NOPE" {} { transfer_id := "NOPE" } "WL").2.2
     (by decide)).1⟩

/-- C1: when a non-cancelled Payment Entry with the notification's UTR,
payee and company already exists, the settlement writer short-circuits: the
payment-entry table is unchanged, the response is the 200 duplicate outcome
carrying the identifier of an existing non-voided matching record, and the
webhook log row is moved to the Duplicate status. -/
theorem c1_duplicate_settlement_guard (env : Env) (db : DB) (pd : PaymentData) (h : String)
    (pr : PaymentRequest) (pe0 : PaymentEntry)
    (hres : resolve_payment_request db pd.transfer_id = some pr)
    (hpe : pe0 ∈ db.payment_entries)
    (hutr : pe0.reference_no = pd.utr)
    (hparty : pe0.party = pr.party)
    (_hcomp : pe0.company = pr.company)
    (hnc : pe0.docstatus ≠ 2) :
    (create_payment_entry_with_validation env db pd h).2.payment_entries =
      db.payment_entries ∧
    (create_payment_entry_with_validation env db pd h).1.status = "success" ∧
    (create_payment_entry_with_validation env db pd h).1.http = 200 ∧
    (create_payment_entry_with_validation env db pd h).1.message =
      "Payment already processed" ∧
    (∃ pe1, (create_payment_entry_with_validation env db pd h).1.payment_entry =
        some pe1.name ∧
      pe1 ∈ db.payment_entries ∧ pe1.reference_no = pd.utr ∧ pe1.party = pr.party ∧
      pe1.docstatus ≠ 2) ∧
    (lookupLog (create_payment_entry_with_validation env db pd h).2.webhook_logs h).map
      (fun l => l.status) = (lookupLog db.webhook_logs h).map (fun _ => "Duplicate") := by
  have hex : (db.payment_entries.find? (fun pe =>
      pe.reference_no == pd.utr && pe.party == pr.party && pe.docstatus != 2)).isSome := by
    rw [List.find?_isSome]
    exact ⟨pe0, hpe, by simp [hutr, hparty, hnc]⟩
  obtain ⟨pe1, hfind⟩ := Option.isSome_iff_exists.mp hex
  have hprops := List.find?_some hfind
  have hmem := List.mem_of_find?_eq_some hfind
  simp only [Bool.and_eq_true, beq_iff_eq, bne_iff_ne] at hprops
  unfold create_payment_entry_with_validation
  simp only [hres, hfind]
  refine ⟨by trivial, by trivial, by trivial, by trivial,
    ⟨pe1, by trivial, hmem, hprops.1.1, hprops.1.2, hprops.2⟩, ?_⟩
  rw [lookupLog_update_self, lookupLog_update_self]
  cases lookupLog db.webhook_logs h <;> simp [applyPatch]

/-- A store already holding the settlement of UTR1 for payee ACME at company
KFPL, plus the originating Payment Request. -/
def c1_db : DB :=
  { payment_requests :=
      [{ name := "PR-1", party_type := "Supplier", party := "ACME", grand_total := 100,
         company := "KFPL", currency := "INR" }],
    payment_entries :=
      [{ name := "PE-7", payment_type := "Pay", party_type := "Supplier", party := "ACME",
         company := "KFPL", mode_of_payment := "Cashfree", paid_from := "CF",
         paid_to := some "CR", paid_from_account_currency := "INR",
         paid_to_account_currency := "INR", paid_amount := 100, received_amount := 100,
         reference_no := some "UTR1", remarks := "", references := [], docstatus := 1 }] }

/-- C1 witness: redelivering UTR1 for the same payee and company leaves the
payment-entry table unchanged and reports the duplicate as success/200. -/
theorem c1_duplicate_settlement_guard_witness :
    (create_payment_entry_with_validation {} c1_db
      { transfer_id := "PR-1", utr := some "UTR1" } "WL").2.payment_entries =
      c1_db.payment_entries ∧
    (create_payment_entry_with_validation {} c1_db
      { transfer_id := "PR-1", utr := some "UTR1" } "WL").1.status = "success" ∧
    (create_payment_entry_with_validation {} c1_db
      { transfer_id := "PR-1", utr := some "UTR1" } "WL").1.http = 200 := by
  have h := c1_duplicate_settlement_guard {} c1_db
    { transfer_id := "PR-1", utr := some "UTR1" } "WL"
    { name := "PR-1", party_type := "Supplier", party := "ACME", grand_total := 100,
      company := "KFPL", currency := "INR" }
    { name := "PE-7", payment_type := "Pay", party_type := "Supplier", party := "ACME",
      company := "KFPL", mode_of_payment := "Cashfree", paid_from := "CF",
      paid_to := some "CR", paid_from_account_currency := "INR",
      paid_to_account_currency := "INR", paid_amount := 100, received_amount := 100,
      reference_no := some "UTR1", remarks := "", references := [], docstatus := 1 }
    (by decide) (by decide) (by decide) (by decide) (by decide) (by decide)
  exact ⟨h.1, h.2.1, h.2.2.1⟩

/-- C3: when every validation passes but `pe.submit()` fails, the handler
answers HTTP 200 with status partial_success, the freshly created settlement
draft stays in the table with docstatus 0 (held for review, not deleted), its
identifier is returned, and the webhook log row records the Validation
Failed status together with the finalize error. -/
theorem c3_finalize_failure_held (env : Env) (db : DB) (pd : PaymentData) (h : String)
    (pr : PaymentRequest) (acct : String)
    (hres : resolve_payment_request db pd.transfer_id = some pr)
    (hnodup : db.payment_entries.find? (fun pe =>
      pe.reference_no == pd.utr && pe.party == pr.party && pe.docstatus != 2) = none)
    (hacct : get_cashfree_bank_account db pr.company = some acct)
    (hsub : env.submit_ok = false) :
    (create_payment_entry_with_validation env db pd h).1.status = "partial_success" ∧
    (create_payment_entry_with_validation env db pd h).1.http = 200 ∧
    (create_payment_entry_with_validation env db pd h).2.payment_entries.dropLast =
      db.payment_entries ∧
    ((create_payment_entry_with_validation env db pd h).2.payment_entries.getLast?).map
      (fun pe => pe.docstatus) = some 0 ∧
    ((create_payment_entry_with_validation env db pd h).2.payment_entries.getLast?).map
      (fun pe => some pe.name) =
      some (create_payment_entry_with_validation env db pd h).1.payment_entry ∧
    (lookupLog (create_payment_entry_with_validation env db pd h).2.webhook_logs h).map
      (fun l => l.status) =
      (lookupLog db.webhook_logs h).map (fun _ => "Validation Failed") ∧
    (lookupLog (create_payment_entry_with_validation env db pd h).2.webhook_logs h).map
      (fun l => l.error_log) =
      (lookupLog db.webhook_logs h).map (fun _ => env.submit_error) := by
  unfold create_payment_entry_with_validation
  simp only [hres, hnodup, hacct, hsub, Bool.false_eq_true, if_false]
  refine ⟨by trivial, by trivial, ?_, ?_, ?_, ?_, ?_⟩
  · simp [List.dropLast_concat]
  · simp [List.getLast?_append]
  · simp [List.getLast?_append]
  · rw [lookupLog_update_self, lookupLog_update_self, lookupLog_update_self,
      lookupLog_update_self]
    cases lookupLog db.webhook_logs h <;> simp [applyPatch]
  · rw [lookupLog_update_self, lookupLog_update_self, lookupLog_update_self,
      lookupLog_update_self]
    cases lookupLog db.webhook_logs h <;> simp [applyPatch]

/-- A store where all validations pass: Payment Request, Cashfree clearing
account, company default payable account and a fresh webhook-log row. -/
def c3_db : DB :=
  { payment_requests :=
      [{ name := "PR-2", party_type := "Supplier", party := "ACME", grand_total := 500,
         company := "KFPL", currency := "INR" }],
    accounts :=
      [{ name := "Cashfree - K", account_name := "Cashfree", company := "KFPL",
         account_type := "Bank", is_group := false }],
    companies :=
      [{ name := "KFPL", abbr := "K", default_payable_account := some "Creditors - K" }],
    webhook_logs :=
      [{ transfer_id := "WL2", webhook_event := "TRANSFER_SUCCESS", raw_payload := "raw",
         signature := none, headers := "", status := "Received", retry_count := 0 }] }

/-- An environment where the external ledger rejects the submit call. -/
def c3_env : Env := { submit_ok := false, submit_error := "forced submit error" }

/-- C3 witness: a forced submit failure leaves the draft (docstatus 0) in
place, answers partial_success/200, and stores the forced error in the log. -/
theorem c3_finalize_failure_held_witness :
    (create_payment_entry_with_validation c3_env c3_db
      { transfer_id := "PR-2", utr := some "UTR2", amount := 500 } "WL2").1.status =
      "partial_success" ∧
    (List.dropLast (create_payment_entry_with_validation c3_env c3_db
      { transfer_id := "PR-2", utr := some "UTR2", amount := 500 } "WL2").2.payment_entries) =
      c3_db.payment_entries ∧
    (List.getLast? (create_payment_entry_with_validation c3_env c3_db
      { transfer_id := "PR-2", utr := some "UTR2", amount := 500 } "WL2").2.payment_entries).map
      (fun pe => pe.docstatus) = some 0 ∧
    (lookupLog (create_payment_entry_with_validation c3_env c3_db
      { transfer_id := "PR-2", utr := some "UTR2", amount := 500 } "WL2").2.webhook_logs
      "WL2").map (fun l => l.error_log) = some "forced submit error" := by
  have h := c3_finalize_failure_held c3_env c3_db
    { transfer_id := "PR-2", utr := some "UTR2", amount := 500 } "WL2"
    { name := "PR-2", party_type := "Supplier", party := "ACME", grand_total := 500,
      company := "KFPL", currency := "INR" }
    "Cashfree - K" (by decide) (by decide) (by decide) (by decide)
  exact ⟨h.1, h.2.2.1, h.2.2.2.1, h.2.2.2.2.2.2.trans (by decide)⟩

/-- The handle `create_webhook_log` returns is the transfer id it was given,
on both the fresh and the duplicate branch. -/
theorem create_webhook_log_handle (logs : List WebhookLog) (tid ev raw : String)
    (sg : Option String) (hd st : String) :
    (create_webhook_log logs tid ev raw sg hd st).2 = tid := by
  unfold create_webhook_log
  cases logs.find? (fun l => l.transfer_id == tid) <;> rfl

/-- Creating the log row and then patching its status leaves the row bearing
the patched status. -/
theorem lookupLog_create_update_status (logs : List WebhookLog) (tid ev raw : String)
    (sg : Option String) (hd st : String) (p : LogPatch) (ps : String)
    (hp : p.status = some ps) :
    (lookupLog (update_webhook_log (create_webhook_log logs tid ev raw sg hd st).1 tid p)
      tid).map (fun l => l.status) = some ps := by
  obtain ⟨l0, hl0, hst, htid⟩ := lookupLog_create logs tid ev raw sg hd st
  rw [lookupLog_update_self, hl0]
  simp [applyPatch, hp]

/-- On first sight of a transfer id, creating the log row and then patching
it still leaves the delivered raw payload stored on the row. -/
theorem lookupLog_create_update_raw (logs : List WebhookLog) (tid ev raw : String)
    (sg : Option String) (hd st : String) (p : LogPatch)
    (hfresh : countLog logs tid = 0) :
    (lookupLog (update_webhook_log (create_webhook_log logs tid ev raw sg hd st).1 tid p)
      tid).map (fun l => l.raw_payload) = some raw := by
  have hfirst := create_webhook_log_first logs tid ev raw sg hd st hfresh
  rw [lookupLog_update_raw, hfirst.2]
  rfl

/-- C6: a request with neither a body signature nor a header signature is
rejected with HTTP 401 and the Missing signature message (there is no
permissive mode), the webhook log row is left in the Signature Failed
status, and neither payment entries nor payment requests are touched. -/
theorem c6_missing_signature_reject (env : Env) (db : DB) (raw : String) (data : PyDict)
    (headers : List (String × String))
    (hb : pgetT data "signature" = none)
    (hh : hgetT headers "x-webhook-signature" = none) :
    (cashfree_payout_webhook env db raw data headers).resp =
      { status := "error", message := "Missing signature", http := 401 } ∧
    (cashfree_payout_webhook env db raw data headers).db.payment_entries =
      db.payment_entries ∧
    (cashfree_payout_webhook env db raw data headers).db.payment_requests =
      db.payment_requests ∧
    (lookupLog (cashfree_payout_webhook env db raw data headers).db.webhook_logs
      (log_transfer_id env data)).map (fun l => l.status) = some "Signature Failed" := by
  unfold cashfree_payout_webhook
  simp only [hb, hh, Option.map_none', create_webhook_log_handle]
  refine ⟨by trivial, by trivial, by trivial, ?_⟩
  exact lookupLog_create_update_status _ _ _ _ _ _ _
    { status := some "Signature Failed", error_log := some "No signature provided" }
    "Signature Failed" rfl

/-- A store with one pending Payment Request for the C6 scenario. -/
def c6_db : DB :=
  { payment_requests :=
      [{ name := "PR-9", party_type := "Supplier", party := "ACME", grand_total := 50,
         company := "KFPL", currency := "INR",
         custom_reconciliation_status := "Pending" }] }

/-- The C6 request payload: a success notification with no signature at
all. -/
def c6_data : PyDict :=
  [("transferId", .str "PR-9"), ("event", .str "TRANSFER_SUCCESS")]

/-- C6 witness: concrete unsigned POST is answered 401, the log row reads
Signature Failed, and the store's Payment Requests and Payment Entries are
untouched. -/
theorem c6_missing_signature_reject_witness :
    (cashfree_payout_webhook {} c6_db "raw6" c6_data []).resp =
      { status := "error", message := "Missing signature", http := 401 } ∧
    (cashfree_payout_webhook {} c6_db "raw6" c6_data []).db.payment_entries =
      c6_db.payment_entries ∧
    (cashfree_payout_webhook {} c6_db "raw6" c6_data []).db.payment_requests =
      c6_db.payment_requests ∧
    (lookupLog (cashfree_payout_webhook {} c6_db "raw6" c6_data []).db.webhook_logs
      (log_transfer_id {} c6_data)).map (fun l => l.status) = some "Signature Failed" :=
  c6_missing_signature_reject {} c6_db "raw6" c6_data [] rfl rfl

/-- Environment for probing the non-success event path (transparent MAC so a
valid signature can be written down). -/
def c5_env : Env := { secret := some "k5", hmacB64 := fun _ m => m }

/-- A Payment Request that still carries its payout identifier from the
failed attempt. -/
def c5_db : DB :=
  { payment_requests :=
      [{ name := "PR-7", party_type := "Supplier", party := "ACME", grand_total := 75,
         company := "KFPL", currency := "INR",
         custom_cashfree_payout_id := some "TID9",
         custom_reconciliation_status := "Pending" }] }

/-- A correctly signed TRANSFER_FAILED notification for that payout id. -/
def c5_data : PyDict :=
  [("transferId", .str "TID9"), ("event", .str "TRANSFER_FAILED"),
   ("reason", .str "Insufficient balance"),
   ("signature", .str "TRANSFER_FAILEDInsufficient balanceTID9")]

/-- C5 counterexample: the TRANSFER_FAILED notification updates the Payment
Request's reconciliation status and failure reason and creates no
settlement, but the stored payout identifier is still `some "TID9"`
afterwards — the handler does NOT clear the stale payout identifier as the
claim states. -/
theorem c5_payout_id_not_cleared :
    ((cashfree_payout_webhook c5_env c5_db "" c5_data []).db.payment_requests.find?
      (fun pr => pr.name == "PR-7")).map (fun pr =>
        (pr.custom_reconciliation_status, pr.custom_failure_reason,
         pr.custom_cashfree_payout_id)) =
      some ("Failed", "Insufficient balance", some "TID9") ∧
    (some "TID9" : Option String) ≠ none ∧
    (cashfree_payout_webhook c5_env c5_db "" c5_data []).resp.status = "ignored" ∧
    (cashfree_payout_webhook c5_env c5_db "" c5_data []).resp.http = 200 ∧
    (cashfree_payout_webhook c5_env c5_db "" c5_data []).db.payment_entries = [] := by
  exact ⟨by decide, by decide, by decide, by decide, by decide⟩

/-- C5 (amended): a verified TRANSFER_FAILED or TRANSFER_REVERSED
notification bypasses the settlement writer (payment entries unchanged),
answers ignored/200, and rewrites every Payment Request matched by name or
stored payout id, setting exactly its reconciliation status (Failed resp.
Reversed) and failure reason; all other fields — including the stored payout
identifier, which is NOT cleared — and all other Payment Requests are left
unchanged. -/
theorem c5_nonsuccess_events (env : Env) (db : DB) (raw : String) (data : PyDict)
    (headers : List (String × String)) (s ev tid : String)
    (hsig : pgetT data "signature" = some (.str s))
    (hver : verify_cashfree_signature_v1 env data s = true)
    (hev : pgetT data "event" = some (.str ev))
    (hevU : pyUpper ev = "TRANSFER_FAILED" ∨ pyUpper ev = "TRANSFER_REVERSED")
    (htid : pgetT data "transferId" = some (.str tid)) :
    (cashfree_payout_webhook env db raw data headers).resp =
      { status := "ignored", message := "Event " ++ ev ++ " not processed", http := 200 } ∧
    (cashfree_payout_webhook env db raw data headers).db.payment_entries =
      db.payment_entries ∧
    (cashfree_payout_webhook env db raw data headers).db.payment_requests =
      db.payment_requests.map (fun pr =>
        if pr.name == tid || pr.custom_cashfree_payout_id == some tid then
          { pr with custom_reconciliation_status := event_status ev,
                    custom_failure_reason := webhook_failure_reason data }
        else pr) := by
  have hne : (pyUpper ev != "TRANSFER_SUCCESS") = true := by
    rcases hevU with h | h <;> simp [h]
  have hor : (pyUpper ev == "TRANSFER_FAILED" || pyUpper ev == "TRANSFER_REVERSED") = true := by
    rcases hevU with h | h <;> simp [h]
  unfold cashfree_payout_webhook extracted_transfer_id extracted_event_type
  simp only [hsig, htid, Option.map_some', PyVal.asStr, Option.getD_some,
    create_webhook_log_handle, hev, hver, if_true]
  unfold webhook_after_signature
  simp only [hne, if_true, hor, update_payment_request_status, event_status,
    webhook_failure_reason]
  refine ⟨by trivial, by trivial, by trivial⟩

/-- C5 witness: the amended theorem applied to the concrete TRANSFER_FAILED
notification above. -/
theorem c5_nonsuccess_events_witness :
    (cashfree_payout_webhook c5_env c5_db "" c5_data []).resp =
      { status := "ignored", message := "Event TRANSFER_FAILED not processed",
        http := 200 } ∧
    (cashfree_payout_webhook c5_env c5_db "" c5_data []).db.payment_entries =
      c5_db.payment_entries ∧
    (cashfree_payout_webhook c5_env c5_db "" c5_data []).db.payment_requests =
      c5_db.payment_requests.map (fun pr =>
        if pr.name == "TID9" || pr.custom_cashfree_payout_id == some "TID9" then
          { pr with custom_reconciliation_status := event_status "TRANSFER_FAILED",
                    custom_failure_reason := webhook_failure_reason c5_data }
        else pr) :=
  c5_nonsuccess_events c5_env c5_db "" c5_data []
    "TRANSFER_FAILEDInsufficient balanceTID9" "TRANSFER_FAILED" "TID9"
    rfl (by decide) rfl (Or.inl rfl) rfl


/-- Updating Payment Request statuses never touches the webhook-log table. -/
theorem update_payment_request_status_webhook_logs (db : DB) (tid ev : String)
    (data : PyDict) :
    (update_payment_request_status db tid ev data).webhook_logs = db.webhook_logs := rfl

/-- The settlement writer only patches the webhook-log row, so the raw
payload it stores survives every branch. -/
theorem cpe_raw_preserved (env : Env) (db : DB) (pd : PaymentData) (h : String) :
    (lookupLog (create_payment_entry_with_validation env db pd h).2.webhook_logs h).map
      (fun l => l.raw_payload) =
    (lookupLog db.webhook_logs h).map (fun l => l.raw_payload) := by
  unfold create_payment_entry_with_validation
  cases hres : resolve_payment_request db pd.transfer_id with
  | none =>
      simp only [hres]
      rw [lookupLog_update_raw]
  | some pr =>
      simp only [hres]
      cases hdup : db.payment_entries.find? (fun pe =>
          pe.reference_no == pd.utr && pe.party == pr.party && pe.docstatus != 2) with
      | some pe =>
          simp only [hdup]
          rw [lookupLog_update_raw, lookupLog_update_raw]
      | none =>
          simp only [hdup]
          cases hacct : get_cashfree_bank_account db pr.company with
          | none =>
              simp only [hacct]
              rw [lookupLog_update_raw, lookupLog_update_raw]
          | some acct =>
              simp only [hacct]
              by_cases hsub : env.submit_ok
              · simp only [hsub, if_true]
                rw [lookupLog_update_raw, lookupLog_update_raw, lookupLog_update_raw,
                  lookupLog_update_raw]
              · simp only [hsub, Bool.false_eq_true, if_false]
                rw [lookupLog_update_raw, lookupLog_update_raw, lookupLog_update_raw,
                  lookupLog_update_raw]

/-- STEPS 4-5 preserve the stored raw payload of the log row. -/
theorem finish_raw_preserved (env : Env) (db : DB) (td : PyDict) (tid2 : Option String)
    (utr : Option String) (amount : Rat) (h : String) (trace : List Ev) :
    (lookupLog (webhook_finish env db td tid2 utr amount h trace).db.webhook_logs h).map
      (fun l => l.raw_payload) =
    (lookupLog db.webhook_logs h).map (fun l => l.raw_payload) := by
  unfold webhook_finish
  cases tid2 with
  | none => rw [lookupLog_update_raw]
  | some tid => exact cpe_raw_preserved env db _ h

/-- Everything after signature validation preserves the stored raw payload
of the log row. -/
theorem after_sig_raw_preserved (env : Env) (db : DB) (data : PyDict)
    (transfer_id : Option String) (event_type : String) (h : String) (trace : List Ev) :
    (lookupLog (webhook_after_signature env db data transfer_id event_type h
      trace).db.webhook_logs h).map (fun l => l.raw_payload) =
    (lookupLog db.webhook_logs h).map (fun l => l.raw_payload) := by
  unfold webhook_after_signature
  by_cases hne : (pyUpper event_type != "TRANSFER_SUCCESS") = true
  · simp only [hne, if_true]
    cases transfer_id with
    | none => rw [lookupLog_update_raw, lookupLog_update_raw]
    | some tid =>
        by_cases hor : (pyUpper event_type == "TRANSFER_FAILED" ||
            pyUpper event_type == "TRANSFER_REVERSED") = true
        · simp only [hor, if_true, update_payment_request_status_webhook_logs]
          rw [lookupLog_update_raw, lookupLog_update_raw]
        · simp only [hor, Bool.false_eq_true, if_false]
          rw [lookupLog_update_raw, lookupLog_update_raw]
  · simp only [hne, Bool.false_eq_true, if_false]
    cases hamt : extract_amount (match pget data "data" with
      | some (.dict d) =>
          match pgetT d "transfer" with
          | some (.dict t) => t
          | _ => d
      | _ => data) with
    | none =>
        simp only [hamt]
        rw [lookupLog_update_raw, lookupLog_update_raw]
    | some amt =>
        simp only [hamt]
        rw [finish_raw_preserved, lookupLog_update_raw]

/-- The post-verification stage emits no further trace events. -/
theorem after_sig_trace (env : Env) (db : DB) (data : PyDict)
    (transfer_id : Option String) (event_type : String) (h : String) (trace : List Ev) :
    (webhook_after_signature env db data transfer_id event_type h trace).trace = trace := by
  unfold webhook_after_signature webhook_finish
  by_cases hne : (pyUpper event_type != "TRANSFER_SUCCESS") = true
  · simp only [hne, if_true]
  · simp only [hne, Bool.false_eq_true, if_false]
    cases hamt : extract_amount (match pget data "data" with
      | some (.dict d) =>
          match pgetT d "transfer" with
          | some (.dict t) => t
          | _ => d
      | _ => data) with
    | none => simp only [hamt]
    | some amt =>
        simp only [hamt]
        cases htid : ((((pgetT (match pget data "data" with
            | some (.dict d) =>
                match pgetT d "transfer" with
                | some (.dict t) => t
                | _ => d
            | _ => data) "transferId").orElse
          (fun _ => pgetT (match pget data "data" with
            | some (.dict d) =>
                match pgetT d "transfer" with
                | some (.dict t) => t
                | _ => d
            | _ => data) "transfer_id")).map PyVal.asStr).orElse
          (fun _ => transfer_id)) with
        | none => simp only [htid]
        | some tid => simp only [htid]

/-- Every handler run records the log first and then performs at most one
signature verification. -/
theorem webhook_trace_shape (env : Env) (db : DB) (raw : String) (data : PyDict)
    (headers : List (String × String)) :
    (cashfree_payout_webhook env db raw data headers).trace = [Ev.recordLog] ∨
    (cashfree_payout_webhook env db raw data headers).trace =
      [Ev.recordLog, Ev.verifySig] := by
  unfold cashfree_payout_webhook
  cases hsb : (pgetT data "signature").map PyVal.asStr with
  | some s =>
      simp only [hsb]
      cases hv : verify_cashfree_signature_v1 env data s with
      | true =>
          simp only [hv, if_true]
          right
          exact after_sig_trace env _ data _ _ _ _
      | false =>
          simp only [hv, Bool.false_eq_true, if_false]
          right
          trivial
  | none =>
      simp only [hsb]
      cases hsh : hgetT headers "x-webhook-signature" with
      | some s =>
          cases hv : verify_cashfree_signature_v2 env headers raw s with
          | true =>
              simp only [hv, if_true]
              right
              exact after_sig_trace env _ data _ _ _ _
          | false =>
              simp only [hv, Bool.false_eq_true, if_false]
              right
              trivial
      | none =>
          left
          rfl

/-- C7: the Idempotency Ledger record is always the first effect — the
recordLog event heads every trace and any verification event comes strictly
after it — and for a first-seen transfer id the stored raw payload equals the
delivered raw body no matter how the request is then judged, so the payload
survives a verification rejection and only the recorded outcome fields can
differ between an accepted and a rejected request. -/
theorem c7_log_before_verification (env : Env) (db : DB) (raw : String) (data : PyDict)
    (headers : List (String × String))
    (hfresh : countLog db.webhook_logs (log_transfer_id env data) = 0) :
    (cashfree_payout_webhook env db raw data headers).trace.head? = some Ev.recordLog ∧
    (∀ i, (cashfree_payout_webhook env db raw data headers).trace.get? i =
        some Ev.verifySig → 0 < i) ∧
    (lookupLog (cashfree_payout_webhook env db raw data headers).db.webhook_logs
      (log_transfer_id env data)).map (fun l => l.raw_payload) = some raw := by
  refine ⟨?_, ?_, ?_⟩
  · rcases webhook_trace_shape env db raw data headers with h | h <;> rw [h] <;> rfl
  · rcases webhook_trace_shape env db raw data headers with h | h <;> rw [h] <;>
      intro i hi <;> cases i with
    | zero => simp [List.get?] at hi
    | succ n => exact Nat.succ_pos n
  · unfold cashfree_payout_webhook
    cases hsb : (pgetT data "signature").map PyVal.asStr with
    | some s =>
        simp only [hsb]
        cases hv : verify_cashfree_signature_v1 env data s with
        | true =>
            simp only [hv, if_true, create_webhook_log_handle]
            rw [after_sig_raw_preserved]
            rw [(create_webhook_log_first _ _ _ _ _ _ _ hfresh).2]
            rfl
        | false =>
            simp only [hv, Bool.false_eq_true, if_false, create_webhook_log_handle]
            exact lookupLog_create_update_raw _ _ _ _ _ _ _
              { status := some "Signature Failed",
                error_log := some "V1 signature verification failed" } hfresh
    | none =>
        simp only [hsb]
        cases hsh : hgetT headers "x-webhook-signature" with
        | some s =>
            cases hv : verify_cashfree_signature_v2 env headers raw s with
            | true =>
                simp only [hv, if_true, create_webhook_log_handle]
                rw [after_sig_raw_preserved]
                rw [(create_webhook_log_first _ _ _ _ _ _ _ hfresh).2]
                rfl
            | false =>
                simp only [hv, Bool.false_eq_true, if_false, create_webhook_log_handle]
                exact lookupLog_create_update_raw _ _ _ _ _ _ _
                  { status := some "Signature Failed",
                    error_log := some "V2 signature verification failed" } hfresh
        | none =>
            simp only [create_webhook_log_handle]
            exact lookupLog_create_update_raw _ _ _ _ _ _ _
              { status := some "Signature Failed",
                error_log := some "No signature provided" } hfresh

/-- The C7 probe payload: a signed success notification (the default
environment has no secret, so verification rejects it). -/
def c7_data : PyDict :=
  [("transferId", .str "T7"), ("event", .str "TRANSFER_SUCCESS"),
   ("signature", .str "sig7")]

/-- C7 witness: on a fresh transfer id with a rejected signature, the trace
starts with recordLog and the raw body is stored on the log row. -/
theorem c7_log_before_verification_witness :
    (cashfree_payout_webhook {} {} "raw7" c7_data []).trace.head? = some Ev.recordLog ∧
    (∀ i, (cashfree_payout_webhook {} {} "raw7" c7_data []).trace.get? i =
        some Ev.verifySig → 0 < i) ∧
    (lookupLog (cashfree_payout_webhook {} {} "raw7" c7_data []).db.webhook_logs
      (log_transfer_id {} c7_data)).map (fun l => l.raw_payload) = some "raw7" :=
  c7_log_before_verification {} {} "raw7" c7_data [] (by decide)


/-- No branch of the settlement writer answers HTTP 400; the missing-field
rejection is issued earlier, only for a missing transfer id. -/
theorem cpe_http_ne_400 (env : Env) (db : DB) (pd : PaymentData) (h : String) :
    (create_payment_entry_with_validation env db pd h).1.http ≠ 400 := by
  unfold create_payment_entry_with_validation
  cases hres : resolve_payment_request db pd.transfer_id with
  | none => simp [hres]
  | some pr =>
      cases hdup : db.payment_entries.find? (fun pe =>
          pe.reference_no == pd.utr && pe.party == pr.party && pe.docstatus != 2) with
      | some pe => simp [hres, hdup]
      | none =>
          cases hacct : get_cashfree_bank_account db pr.company with
          | none => simp [hres, hdup, hacct]
          | some acct =>
              by_cases hsub : env.submit_ok
              · simp [hres, hdup, hacct, hsub]
              · simp [hres, hdup, hacct, hsub]

/-- C10: a payload whose amount field is missing (or empty/zero, both
falsy) extracts to amount 0 and is not rejected: the 400 rejection of STEP 4
happens exactly when the transfer id is missing, and under the usual
validation hypotheses the settlement writer still creates the Payment Entry,
with paid amount and received amount both equal to the extracted amount
(hence 0). -/
theorem c10_missing_amount_defaults_to_zero :
    (∀ td : PyDict, pgetT td "amount" = none → extract_amount td = some 0) ∧
    (∀ (env : Env) (db : DB) (td : PyDict) (tid2 utr : Option String) (amount : Rat)
        (h : String) (tr : List Ev),
      (webhook_finish env db td tid2 utr amount h tr).resp.http = 400 → tid2 = none) ∧
    (∀ (env : Env) (db : DB) (pd : PaymentData) (h : String) (pr : PaymentRequest)
        (acct : String),
      resolve_payment_request db pd.transfer_id = some pr →
      db.payment_entries.find? (fun pe =>
        pe.reference_no == pd.utr && pe.party == pr.party && pe.docstatus != 2) = none →
      get_cashfree_bank_account db pr.company = some acct →
      (create_payment_entry_with_validation env db pd h).1.http = 200 ∧
      (create_payment_entry_with_validation env db pd h).2.payment_entries.length =
        db.payment_entries.length + 1 ∧
      (List.getLast? (create_payment_entry_with_validation env db pd
        h).2.payment_entries).map (fun pe => (pe.paid_amount, pe.received_amount)) =
        some (pd.amount, pd.amount)) := by
  refine ⟨?_, ?_, ?_⟩
  · intro td hnone
    unfold extract_amount
    rw [hnone]
  · intro env db td tid2 utr amount h tr hi
    cases tid2 with
    | none => rfl
    | some tid =>
        exfalso
        apply cpe_http_ne_400 env db
          { transfer_id := tid, utr := utr, amount := amount,
            status := (((pgetT td "transferStatus").orElse
              (fun _ => pgetT td "status")).map PyVal.asStr) } h
        exact hi
  · intro env db pd h pr acct hres hdup hacct
    unfold create_payment_entry_with_validation
    simp only [hres, hdup, hacct]
    by_cases hsub : env.submit_ok
    · simp only [hsub, if_true]
      refine ⟨by trivial, ?_, ?_⟩
      · simp [List.length_map, List.length_append]
      · simp only [List.map_append, List.getLast?_append]
        simp
    · simp only [hsub, Bool.false_eq_true, if_false]
      refine ⟨by trivial, ?_, ?_⟩
      · simp [List.length_append]
      · simp [List.getLast?_append]

/-- C10 witness: a transfer-data dict with no amount key extracts amount 0,
and the settlement writer then creates a Payment Entry over the C3 store
with both amount fields 0 and a 200 response. -/
theorem c10_missing_amount_defaults_to_zero_witness :
    extract_amount [("transferId", PyVal.str "PR-2")] = some 0 ∧
    (create_payment_entry_with_validation {} c3_db
      { transfer_id := "PR-2", utr := some "UTRX", amount := 0 } "WL2").1.http = 200 ∧
    (List.getLast? (create_payment_entry_with_validation {} c3_db
      { transfer_id := "PR-2", utr := some "UTRX", amount := 0 } "WL2").2.payment_entries).map
      (fun pe => (pe.paid_amount, pe.received_amount)) = some (0, 0) := by
  have h1 := c10_missing_amount_defaults_to_zero.1 [("transferId", PyVal.str "PR-2")] rfl
  have h3 := c10_missing_amount_defaults_to_zero.2.2 {} c3_db
    { transfer_id := "PR-2", utr := some "UTRX", amount := 0 } "WL2"
    { name := "PR-2", party_type := "Supplier", party := "ACME", grand_total := 500,
      company := "KFPL", currency := "INR" }
    "Cashfree - K" (by decide) (by decide) (by decide)
  exact ⟨h1, h3.1, h3.2.2⟩

end Cashfree
